import Mathlib

set_option maxRecDepth 4096
set_option maxHeartbeats 2000000

/-!
Shallow embedding of the two build targets of `litex-boards`
(`litex_boards/targets/colorlight_5a_75b.py` and
`litex_boards/targets/colorlight_5a_75b_no_soc.py`).

Each target's `main` is a straight-line batch script: it parses flags,
optionally composes a SoC (instantiating submodules, requesting platform
resources, registering timing constraints and bus masters) and dispatches
build / load / flash / sim actions that write a JTAG configuration file and
shell out to `openocd`.  We embed an invocation as the finite trace of
observable events it performs, in program order.  External collaborators
(LiteX's `SoCCore`, the platform object, the PLL and PHY IP cores, the
`openocd` binary) are out of scope; the trace records the call the script
makes into them, not their internals.

Frequencies in the source are exact: `1e9/25e6` nanoseconds = 40 ns, so
period constraints are recorded in whole nanoseconds; PLL output phases in
degrees; PLL output frequencies in Hz.
-/

/-- The submodules either script can instantiate (Python class / IP names). -/
inductive FeatureModule where
  | pll        -- `ECP5PLL()` inside `_CRG`
  | crg        -- `_CRG`
  | led        -- `_led` (colorlight_5a_75b) / `_LED` (no_soc variant)
  | sdrphy     -- `GENSDRPHY(...)`
  | ethphy     -- `LiteEthPHYRGMII(...)`
  | ethcore    -- `LiteEthUDPIPCore(...)`
  | etherbone  -- `LiteEthEtherbone(...)`
  deriving DecidableEq

/-- One observable step of an invocation, in program order. -/
inductive Event where
  /-- `colorlight_5a_75b.Platform(revision=...)` is constructed. -/
  | platformInit (revision : String)
  /-- `SoCCore.__init__` runs (creates the CPU/CSR/interconnect fabric). -/
  | socCoreInit
  /-- A submodule object is constructed. -/
  | instantiate (m : FeatureModule)
  /-- `platform.request(name, idx)` (idx 0 when the call passes no index). -/
  | request (name : String) (idx : Nat)
  /-- `self.clock_domains.cd_<name> = ClockDomain()`. -/
  | clockDomain (name : String)
  /-- `pll.create_clkout(cd, freq, phase)` (freq in Hz, phase in degrees). -/
  | createClkout (domain : String) (freqHz : Nat) (phase : Nat)
  /-- `AsyncResetSynchronizer(cd, rst_expr)` on the named domain. -/
  | asyncResetSync (domain : String)
  /-- A pad is combinationally driven from the named clock domain's clock. -/
  | drivePad (pad : String) (fromDomain : String)
  /-- `platform.add_period_constraint(clk, period_ns)`. -/
  | period (clk : String) (ns : Nat)
  /-- `platform.add_false_path_constraints(clks...)` with its argument list. -/
  | falsePathGroup (clks : List String)
  /-- `self.add_csr(name)`. -/
  | addCsr (name : String)
  /-- `self.add_sdram(..., phy, origin=self.mem_map[region], ...)`. -/
  | addSdram (region : String) (phy : FeatureModule)
  /-- `self.add_ethernet(phy=...)`. -/
  | addEthernet (phy : FeatureModule)
  /-- `self.add_etherbone(phy=...)`. -/
  | addEtherbone (phy : FeatureModule)
  /-- `self.add_wb_master(bus)`: a bus master registered on the interconnect. -/
  | addWbMaster (name : String)
  /-- A file is written with the given full text. -/
  | writeFile (path : String) (content : String)
  /-- A file is removed (`os.system("rm ...")`). -/
  | deleteFile (path : String)
  /-- `os.system("cp src dst")`. -/
  | copyFile (src : String) (dst : String)
  /-- An auxiliary shell command (the bit-to-flash conversion). -/
  | runScript (cmd : String)
  /-- `os.system("openocd -f openocd.cfg -c \"... svf <image>; exit\"")`. -/
  | invokeProgrammer (image : String)
  /-- The external build backend is invoked (`builder.build` / `platform.build`). -/
  | buildBackend
  /-- `print("sim")` of the simulation stub. -/
  | simPrint
  /-- `exit()`: the process terminates here; nothing after it runs. -/
  | exitProcess
  deriving DecidableEq

/-- The exact text both scripts write into `openocd.cfg` (note the leading
newline, as in the source's triple-quoted literal). -/
def openocdCfg : String :=
  "\ninterface ftdi\nftdi_vid_pid 0x0403 0x6010\nftdi_channel 0\nftdi_layout_init 0x0098 0x008b\nreset_config none\nadapter_khz 25000\njtag newtap ecp5 tap -irlen 8 -expected-id 0x41111043\n"

-- Trace projections ------------------------------------------------------

/-- The submodules instantiated along a trace, in order. -/
def instantiated (t : List Event) : List FeatureModule :=
  t.filterMap fun e => match e with | .instantiate m => some m | _ => none

/-- The `(resource-name, index)` pairs requested from the platform, in order. -/
def requests (t : List Event) : List (String × Nat) :=
  t.filterMap fun e => match e with | .request n i => some (n, i) | _ => none

/-- The period constraints registered along a trace, in order. -/
def periodConstraints (t : List Event) : List (String × Nat) :=
  t.filterMap fun e => match e with | .period c p => some (c, p) | _ => none

/-- The false-path constraint groups registered along a trace. -/
def falsePathGroups (t : List Event) : List (List String) :=
  t.filterMap fun e => match e with | .falsePathGroup g => some g | _ => none

/-- Whether some registered false-path group exempts paths between `a` and `b`. -/
def hasFalsePath (t : List Event) (a b : String) : Bool :=
  (falsePathGroups t).any fun g =>
    (g.any fun c => decide (c = a)) && (g.any fun c => decide (c = b))

/-- The bus masters registered on the interconnect, in order. -/
def wbMasters (t : List Event) : List String :=
  t.filterMap fun e => match e with | .addWbMaster n => some n | _ => none

/-- The SDRAM controllers added, with claimed memory region and wrapped PHY. -/
def sdramAdds (t : List Event) : List (String × FeatureModule) :=
  t.filterMap fun e => match e with | .addSdram r p => some (r, p) | _ => none

/-- The images the external programmer is invoked on, in order. -/
def programmerImages (t : List Event) : List String :=
  t.filterMap fun e => match e with | .invokeProgrammer i => some i | _ => none

/-- How many times the external build backend is invoked along a trace. -/
def backendInvocations (t : List Event) : Nat :=
  (t.filterMap fun e => match e with | .buildBackend => some () | _ => none).length

/-- Whether `openocd.cfg` exists on disk once the trace has run (it is absent
before the invocation starts). -/
def cfgOnDisk (t : List Event) : Bool :=
  t.foldl (fun s e => match e with
    | .writeFile p _ => if p = "openocd.cfg" then true else s
    | .deleteFile p => if p = "openocd.cfg" then false else s
    | _ => s) false

/-- Whether every programmer invocation in the trace happens while
`openocd.cfg` is present on disk (written earlier and not yet deleted). -/
def invokesHaveCfg (t : List Event) : Bool :=
  (t.foldl (fun s e => match e with
    | .writeFile p _ => (if p = "openocd.cfg" then true else s.1, s.2)
    | .deleteFile p => (if p = "openocd.cfg" then false else s.1, s.2)
    | .invokeProgrammer _ => (s.1, s.2 && s.1)
    | _ => s) (false, true)).2

-- ==========================================================================
-- File 1: litex_boards/targets/colorlight_5a_75b.py
-- ==========================================================================

namespace Colorlight

/-- `_led.__init__`: a free-running counter whose high bits combinationally
drive three `j1` pads (lines 46-57). -/
def _led : List Event :=
  [ .request ("j1") 0, .request ("j1") 1, .request ("j1") 2 ]

/-- `_CRG.__init__` (lines 62-85): two clock domains, the 25 MHz reference
clock with its 40 ns period constraint, an ECP5 PLL with a 125 MHz `sys`
output and a 90°-shifted `sys_ps` output, an asynchronous reset synchronizer
on `sys`, and the `sdram_clock` pad driven from `sys_ps`.  The manual-reset
request (`user_btn_n`) is commented out in this file. -/
def _CRG : List Event :=
  [ .clockDomain ("sys"), .clockDomain ("sys_ps"),
    .request ("clk25") 0,
    .period ("clk25") 40,
    .instantiate .pll,
    .createClkout ("sys") 125000000 0,
    .createClkout ("sys_ps") 125000000 90,
    .asyncResetSync ("sys"),
    .request ("sdram_clock") 0,
    .drivePad ("sdram_clock") ("sys_ps") ]

/-- The reset expression this file's `_CRG` feeds to the
`AsyncResetSynchronizer` on `cd_sys` (line 82): `~pll.locked` — there is no
manual-reset term because the `user_btn_n` request is commented out. -/
def _CRG_sys_rst (pll_locked : Bool) : Bool :=
  !pll_locked

/-- `BaseSoC.__init__` (lines 89-133) as its event trace: platform, SoCCore,
CRG, LED, then the SDRAM block when no integrated main RAM is configured,
then the Ethernet and Etherbone blocks guarded by their flags. -/
def BaseSoC (revision : String) (with_ethernet with_etherbone : Bool)
    (integrated_main_ram_size : Nat) : List Event :=
  [ .platformInit revision, .socCoreInit, .instantiate .crg ] ++ _CRG
  ++ [ .instantiate .led ] ++ _led
  ++ (if integrated_main_ram_size = 0 then
        [ .request ("sdram") 0, .instantiate .sdrphy,
          .addSdram ("main_ram") .sdrphy ]
      else [])
  ++ (if with_ethernet then
        [ .request ("eth_clocks") 0, .request ("eth") 0,
          .instantiate .ethphy, .addCsr ("ethphy"), .addEthernet .ethphy ]
      else [])
  ++ (if with_etherbone then
        [ .request ("eth_clocks") 0, .request ("eth") 0,
          .instantiate .ethphy, .addCsr ("ethphy"), .addEtherbone .ethphy ]
      else [])

/-- `openocd_run_svf` (lines 138-152): write `openocd.cfg`, run openocd on
the given image, then `rm openocd.cfg` — the deletion is unconditional, so
it runs in the load path as well as the flash path. -/
def openocd_run_svf (filename : String) : List Event :=
  [ .writeFile ("openocd.cfg") openocdCfg,
    .invokeProgrammer filename,
    .deleteFile ("openocd.cfg") ]

/-- `load` (lines 154-155). -/
def load : List Event :=
  openocd_run_svf ("soc_basesoc_colorlight_5a_75b/gateware/top.svf")

/-- `flash` (lines 157-161). -/
def flash : List Event :=
  [ .copyFile ("bit_to_flash.py") ("soc_basesoc_colorlight_5a_75b/gateware/"),
    .runScript ("cd soc_basesoc_colorlight_5a_75b/gateware && ./bit_to_flash.py top.bit top.svf.flash") ]
  ++ openocd_run_svf ("soc_basesoc_colorlight_5a_75b/gateware/top.svf.flash")

/-- `sim` (lines 166-168): print and terminate. -/
def sim : List Event :=
  [ .simPrint, .exitProcess ]

/-- The configuration `main` extracts from its command line (lines 177-193).
`integrated_main_ram_size` reaches `BaseSoC` through the `soc_core_argdict`
kwargs. -/
structure Args where
  revision : String
  with_ethernet : Bool
  with_etherbone : Bool
  load : Bool
  flash : Bool
  sim : Bool
  integrated_main_ram_size : Nat

/-- The failure `main` can raise before composing anything: the
`assert not (args.with_ethernet and args.with_etherbone)` on line 188, the
mutual-exclusion (ConfigurationConflict) check of the spec. -/
inductive CompositionError where
  | ConfigurationConflict
  deriving DecidableEq

/-- `main` (lines 172-212): validate the mutual exclusion, then compose
`BaseSoC`; the `Builder(...)`/`builder.build(...)` block (lines 195-203) is
commented out in the source, so no build-backend call appears; then the
load, flash and sim actions fire in that order for every flag that is set
(`load()` and `flash()` return normally; `sim()` exits but is last).
The first component is the invocation's outcome, the second the event trace
it performed. -/
def main (a : Args) : Except CompositionError Unit × List Event :=
  if a.with_ethernet && a.with_etherbone then
    (Except.error CompositionError.ConfigurationConflict, [])
  else
    (Except.ok (),
      BaseSoC a.revision a.with_ethernet a.with_etherbone
        a.integrated_main_ram_size
      ++ (if a.load then load else [])
      ++ (if a.flash then flash else [])
      ++ (if a.sim then sim else []))

end Colorlight

-- ==========================================================================
-- File 2: litex_boards/targets/colorlight_5a_75b_no_soc.py
-- ==========================================================================

namespace NoSoc

/-- `_LED.__init__` (lines 42-61): counter bits drive the `user_led_n` pad
and the R0/G0/B0 lines of the `hub75` bundle. -/
def _LED : List Event :=
  [ .request ("user_led_n") 0, .request ("hub75") 0 ]

/-- `_CRG.__init__` (lines 64-80): one `sys` domain, the 25 MHz reference
clock (40 ns period constraint), the manual-reset button `user_btn_n`, a PLL
with a single `sys` output at the requested frequency (25 MHz here), and an
asynchronous reset synchronizer on `sys`. -/
def _CRG : List Event :=
  [ .clockDomain ("sys"),
    .request ("clk25") 0,
    .request ("user_btn_n") 0,
    .period ("clk25") 40,
    .instantiate .pll,
    .createClkout ("sys") 25000000 0,
    .asyncResetSync ("sys") ]

/-- The reset expression this file's `_CRG` feeds to the
`AsyncResetSynchronizer` on `cd_sys` (line 80): `~pll.locked | ~rst_n` —
PLL-not-locked OR manual reset asserted (the button is active-low). -/
def _CRG_sys_rst (pll_locked rst_n : Bool) : Bool :=
  !pll_locked || !rst_n

/-- `BaseSoC.__init__` (lines 99-110): platform, SoCCore, CRG, LED. -/
def BaseSoC (revision : String) : List Event :=
  [ .platformInit revision, .socCoreInit, .instantiate .crg ] ++ _CRG
  ++ [ .instantiate .led ] ++ _LED

/-- `EtherboneSoC.__init__` (lines 115-142): `BaseSoC`, then the RGMII PHY on
the `eth_clocks`/`eth` bundles at index `eth_phy`, the UDP/IP core, the
Etherbone bridge whose Wishbone bus is registered as a bus master, 40 ns
period constraints on the PHY's `eth_rx`/`eth_tx` domain clocks, and one
false-path group over `sys`, `eth_rx`, `eth_tx`. -/
def EtherboneSoC (revision : String) (eth_phy : Nat) : List Event :=
  BaseSoC revision
  ++ [ .request ("eth_clocks") eth_phy, .request ("eth") eth_phy,
       .instantiate .ethphy, .addCsr ("ethphy"),
       .instantiate .ethcore,
       .instantiate .etherbone,
       .addWbMaster ("etherbone.wishbone.bus"),
       .period ("eth_rx") 40,
       .period ("eth_tx") 40,
       .falsePathGroup [("sys"), ("eth_rx"), ("eth_tx")] ]

/-- `load` (lines 146-166): write `openocd.cfg` (same fixed text), invoke
openocd on the Etherbone image path, and `exit()` — no deletion of the
configuration file in this file. -/
def load : List Event :=
  [ .writeFile ("openocd.cfg") openocdCfg,
    .invokeProgrammer ("soc_etherbonesoc_colorlight_5a_75b/gateware/top.svf"),
    .exitProcess ]

/-- `sim` (lines 170-172). -/
def sim : List Event :=
  [ .simPrint, .exitProcess ]

/-- The configuration `main` extracts from its command line (lines 181-187). -/
structure Args where
  revision : String
  with_etherbone : Bool
  eth_phy : Nat
  load : Bool
  sim : Bool
  no_soc : Bool

/-- `main` (lines 176-207): the actions are dispatched in source order and
`load()`, `sim()` and the `--no-soc` branch each end in `exit()`, so each
`if` is an early exit — load first, then sim, then no-soc (which elaborates
only `_LED` against the raw platform and calls `platform.build`), and only
when none of those flags is set does the default build path compose
`EtherboneSoC` or `BaseSoC` and hand it to the external `Builder`. -/
def main (a : Args) : List Event :=
  if a.load then load
  else if a.sim then sim
  else if a.no_soc then
    [ .platformInit a.revision, .instantiate .led ] ++ _LED
    ++ [ .buildBackend, .exitProcess ]
  else if a.with_etherbone then
    EtherboneSoC a.revision a.eth_phy ++ [ .buildBackend ]
  else
    BaseSoC a.revision ++ [ .buildBackend ]

end NoSoc

-- ==========================================================================
-- Claims
-- ==========================================================================

/-- C1: for every invocation of `colorlight_5a_75b.py` whose configuration
enables both the raw-Ethernet and the Etherbone feature, `main` fails with
the ConfigurationConflict error (the line-188 assertion) before anything is
composed: the performed trace is empty, so no feature module (CRG, LED,
SDRAM, PHY) is instantiated as a side effect of the failed call. -/
theorem C1_conflict_rejected_before_instantiation (a : Colorlight.Args)
    (h1 : a.with_ethernet = true) (h2 : a.with_etherbone = true) :
    (Colorlight.main a).1 =
      Except.error Colorlight.CompositionError.ConfigurationConflict
    ∧ (Colorlight.main a).2 = []
    ∧ instantiated (Colorlight.main a).2 = [] := by
  simp [Colorlight.main, h1, h2, instantiated]

/-- Witness for C1 at the concrete both-features-enabled configuration. -/
theorem C1_witness :
    ((Colorlight.Args.mk ("7.0") true true false false false 0).with_ethernet = true
      ∧ (Colorlight.Args.mk ("7.0") true true false false false 0).with_etherbone = true)
    ∧ ((Colorlight.main (Colorlight.Args.mk ("7.0") true true false false false 0)).1 =
        Except.error Colorlight.CompositionError.ConfigurationConflict
      ∧ (Colorlight.main (Colorlight.Args.mk ("7.0") true true false false false 0)).2 = []
      ∧ instantiated (Colorlight.main (Colorlight.Args.mk ("7.0") true true false false false 0)).2 = []) :=
  ⟨⟨rfl, rfl⟩, C1_conflict_rejected_before_instantiation _ rfl rfl⟩

/-- C4: composing `colorlight_5a_75b_no_soc.py` with revision "7.0" and
Etherbone enabled (no load/sim/no-soc flag) succeeds: the build backend is
reached, the emitted constraint set contains exactly three period
constraints (the primary 25 MHz reference clock and the Ethernet RX and TX
domain clocks, 40 ns each) plus false-path exemptions between the primary
domain and each Ethernet domain, and exactly one bus master — the Etherbone
bridge's Wishbone port — is registered on the interconnect. -/
theorem C4_etherbone_rev70_constraints :
    periodConstraints (NoSoc.main (NoSoc.Args.mk ("7.0") true 0 false false false)) =
      [(("clk25"), 40), (("eth_rx"), 40), (("eth_tx"), 40)]
    ∧ hasFalsePath (NoSoc.main (NoSoc.Args.mk ("7.0") true 0 false false false))
        ("sys") ("eth_rx") = true
    ∧ hasFalsePath (NoSoc.main (NoSoc.Args.mk ("7.0") true 0 false false false))
        ("sys") ("eth_tx") = true
    ∧ wbMasters (NoSoc.main (NoSoc.Args.mk ("7.0") true 0 false false false)) =
        [("etherbone.wishbone.bus")]
    ∧ Event.buildBackend ∈ NoSoc.main (NoSoc.Args.mk ("7.0") true 0 false false false) := by
  decide

/-- C5: both targets' CRGs synchronize the `sys` domain's reset through an
`AsyncResetSynchronizer`; in the no-soc target the synchronized expression
is the logical OR of "PLL not locked" (`~pll.locked`) and "manual reset
asserted" (`~rst_n`, active-low button); in `colorlight_5a_75b.py` the
manual-reset pad is not used (the `user_btn_n` request is commented out), the
reset is driven purely by PLL-lock status — the same OR with the manual term
absent — and composition still succeeds there. -/
theorem C5_reset_synchronization (pll_locked rst_n : Bool) :
    NoSoc._CRG_sys_rst pll_locked rst_n = (!pll_locked || !rst_n)
    ∧ Event.asyncResetSync ("sys") ∈ NoSoc._CRG
    ∧ Colorlight._CRG_sys_rst pll_locked = (!pll_locked || false)
    ∧ Event.asyncResetSync ("sys") ∈ Colorlight._CRG
    ∧ Event.request ("user_btn_n") 0 ∉ Colorlight._CRG
    ∧ (Colorlight.main (Colorlight.Args.mk ("7.0") false false false false false 0)).1 =
        Except.ok () := by
  refine ⟨rfl, by decide, ?_, by decide, by decide, rfl⟩
  simp [Colorlight._CRG_sys_rst]

/-- C7: when the no-soc flag is set and neither load nor sim preempts it
(those actions exit first, per the dispatch order), only the status blinker
is elaborated against the raw platform: the instantiated modules are exactly
`_LED`, the platform requests are its two pads, no SoC core (hence no
address interconnect) is created, no bus master is registered, no SDRAM
controller is added, and no timing constraint is emitted. -/
theorem C7_no_soc_only_led (a : NoSoc.Args) (hn : a.no_soc = true)
    (hl : a.load = false) (hs : a.sim = false) :
    instantiated (NoSoc.main a) = [FeatureModule.led]
    ∧ requests (NoSoc.main a) = [(("user_led_n"), 0), (("hub75"), 0)]
    ∧ Event.socCoreInit ∉ NoSoc.main a
    ∧ wbMasters (NoSoc.main a) = []
    ∧ sdramAdds (NoSoc.main a) = []
    ∧ periodConstraints (NoSoc.main a) = [] := by
  simp [NoSoc.main, hn, hl, hs, NoSoc._LED, instantiated, requests,
    wbMasters, sdramAdds, periodConstraints]

/-- Witness for C7 at the concrete no-soc invocation. -/
theorem C7_witness :
    ((NoSoc.Args.mk ("7.0") false 0 false false true).no_soc = true
      ∧ (NoSoc.Args.mk ("7.0") false 0 false false true).load = false
      ∧ (NoSoc.Args.mk ("7.0") false 0 false false true).sim = false)
    ∧ (instantiated (NoSoc.main (NoSoc.Args.mk ("7.0") false 0 false false true)) =
        [FeatureModule.led]
      ∧ requests (NoSoc.main (NoSoc.Args.mk ("7.0") false 0 false false true)) =
          [(("user_led_n"), 0), (("hub75"), 0)]
      ∧ Event.socCoreInit ∉ NoSoc.main (NoSoc.Args.mk ("7.0") false 0 false false true)
      ∧ wbMasters (NoSoc.main (NoSoc.Args.mk ("7.0") false 0 false false true)) = []
      ∧ sdramAdds (NoSoc.main (NoSoc.Args.mk ("7.0") false 0 false false true)) = []
      ∧ periodConstraints (NoSoc.main (NoSoc.Args.mk ("7.0") false 0 false false true)) = []) :=
  ⟨⟨rfl, rfl, rfl⟩, C7_no_soc_only_led _ rfl rfl rfl⟩

/-- Helper: the validated configurations are exactly those on which the
line-188 assertion's condition is false. -/
theorem Colorlight.netConflictFalse (a : Colorlight.Args)
    (hconf : ¬(a.with_ethernet = true ∧ a.with_etherbone = true)) :
    (a.with_ethernet && a.with_etherbone) = false := by
  cases he : a.with_ethernet <;> cases hb : a.with_etherbone <;> simp_all

/-- Helper: on a validated configuration, `main`'s trace is the `BaseSoC`
composition followed by the load, flash and sim action blocks in order. -/
theorem Colorlight.mainTrace (a : Colorlight.Args)
    (h : (a.with_ethernet && a.with_etherbone) = false) :
    (Colorlight.main a).2 =
      Colorlight.BaseSoC a.revision a.with_ethernet a.with_etherbone
        a.integrated_main_ram_size
      ++ ((if a.load then Colorlight.load else [])
        ++ ((if a.flash then Colorlight.flash else [])
          ++ (if a.sim then Colorlight.sim else []))) := by
  simp [Colorlight.main, h]

/-- C8: on every validated invocation with the flash flag set, the controller
performs, in this order: copy the conversion script next to the built image,
invoke it to translate `top.bit` into the flash-writable `top.svf.flash`,
write the toolchain configuration file (the same `openocdCfg` text the load
path writes), and invoke the external programmer on the flash-form image. -/
theorem C8_flash_action_sequence (a : Colorlight.Args) (hf : a.flash = true)
    (hconf : ¬(a.with_ethernet = true ∧ a.with_etherbone = true)) :
    List.Sublist
      [ Event.copyFile ("bit_to_flash.py") ("soc_basesoc_colorlight_5a_75b/gateware/"),
        Event.runScript ("cd soc_basesoc_colorlight_5a_75b/gateware && ./bit_to_flash.py top.bit top.svf.flash"),
        Event.writeFile ("openocd.cfg") openocdCfg,
        Event.invokeProgrammer ("soc_basesoc_colorlight_5a_75b/gateware/top.svf.flash") ]
      (Colorlight.main a).2
    ∧ Event.writeFile ("openocd.cfg") openocdCfg ∈ Colorlight.load := by
  refine ⟨?_, List.mem_cons_self _ _⟩
  rw [Colorlight.mainTrace a (Colorlight.netConflictFalse a hconf)]
  have h1 : List.Sublist
      [ Event.copyFile ("bit_to_flash.py") ("soc_basesoc_colorlight_5a_75b/gateware/"),
        Event.runScript ("cd soc_basesoc_colorlight_5a_75b/gateware && ./bit_to_flash.py top.bit top.svf.flash"),
        Event.writeFile ("openocd.cfg") openocdCfg,
        Event.invokeProgrammer ("soc_basesoc_colorlight_5a_75b/gateware/top.svf.flash") ]
      ((if a.flash then Colorlight.flash else [])
        ++ (if a.sim then Colorlight.sim else [])) := by
    rw [if_pos hf]
    exact List.Sublist.trans
      (List.sublist_append_left _ [Event.deleteFile ("openocd.cfg")])
      (List.sublist_append_left _ _)
  exact ((h1.trans (List.sublist_append_right _ _)).trans
    (List.sublist_append_right _ _))

/-- Witness for C8 at the concrete flash-only invocation. -/
theorem C8_witness :
    ((Colorlight.Args.mk ("7.0") false false false true false 0).flash = true
      ∧ ¬((Colorlight.Args.mk ("7.0") false false false true false 0).with_ethernet = true
          ∧ (Colorlight.Args.mk ("7.0") false false false true false 0).with_etherbone = true))
    ∧ (List.Sublist
        [ Event.copyFile ("bit_to_flash.py") ("soc_basesoc_colorlight_5a_75b/gateware/"),
          Event.runScript ("cd soc_basesoc_colorlight_5a_75b/gateware && ./bit_to_flash.py top.bit top.svf.flash"),
          Event.writeFile ("openocd.cfg") openocdCfg,
          Event.invokeProgrammer ("soc_basesoc_colorlight_5a_75b/gateware/top.svf.flash") ]
        (Colorlight.main (Colorlight.Args.mk ("7.0") false false false true false 0)).2
      ∧ Event.writeFile ("openocd.cfg") openocdCfg ∈ Colorlight.load) :=
  ⟨⟨rfl, by simp⟩, C8_flash_action_sequence _ rfl (by simp)⟩

/-- C9: on every validated invocation, when no integrated main RAM size is
configured the composition requests the SDRAM pads, instantiates the
`GENSDRPHY` external-memory PHY and adds the SDRAM controller wrapping that
PHY with the "main_ram" region of the address map as its origin; when an
integrated main RAM size is configured no SDRAM controller is instantiated;
and the CRG provides the 90°-phase-shifted `sys_ps` clock domain that drives
the `sdram_clock` pad. -/
theorem C9_memory_controller (a : Colorlight.Args)
    (hconf : ¬(a.with_ethernet = true ∧ a.with_etherbone = true)) :
    (a.integrated_main_ram_size = 0 →
      List.Sublist
        [ Event.request ("sdram") 0, Event.instantiate FeatureModule.sdrphy,
          Event.addSdram ("main_ram") FeatureModule.sdrphy ]
        (Colorlight.main a).2
      ∧ sdramAdds (Colorlight.main a).2 = [(("main_ram"), FeatureModule.sdrphy)])
    ∧ (a.integrated_main_ram_size ≠ 0 →
        sdramAdds (Colorlight.main a).2 = []
        ∧ FeatureModule.sdrphy ∉ instantiated (Colorlight.main a).2)
    ∧ Event.createClkout ("sys_ps") 125000000 90 ∈ Colorlight._CRG
    ∧ Event.drivePad ("sdram_clock") ("sys_ps") ∈ Colorlight._CRG := by
  have hcond := Colorlight.netConflictFalse a hconf
  refine ⟨fun hz => ⟨?_, ?_⟩, fun hnz => ⟨?_, ?_⟩, by decide, by decide⟩
  · rw [Colorlight.mainTrace a hcond]
    have hbase : List.Sublist
        [ Event.request ("sdram") 0, Event.instantiate FeatureModule.sdrphy,
          Event.addSdram ("main_ram") FeatureModule.sdrphy ]
        (Colorlight.BaseSoC a.revision a.with_ethernet a.with_etherbone 0) := by
      cases he : a.with_ethernet <;> cases hb : a.with_etherbone
      · exact List.Sublist.cons _ (by decide)
      · exact List.Sublist.cons _ (by decide)
      · exact List.Sublist.cons _ (by decide)
      · exact absurd ⟨he, hb⟩ hconf
    rw [hz]
    exact hbase.trans (List.sublist_append_left _ _)
  · rw [Colorlight.mainTrace a hcond]
    cases he : a.with_ethernet <;> cases hb : a.with_etherbone
    · cases hl : a.load <;> cases hf : a.flash <;> cases hs : a.sim <;>
        simp [Colorlight.BaseSoC, Colorlight._CRG, Colorlight._led,
          Colorlight.load, Colorlight.flash, Colorlight.sim,
          Colorlight.openocd_run_svf, sdramAdds, hz]
    · cases hl : a.load <;> cases hf : a.flash <;> cases hs : a.sim <;>
        simp [Colorlight.BaseSoC, Colorlight._CRG, Colorlight._led,
          Colorlight.load, Colorlight.flash, Colorlight.sim,
          Colorlight.openocd_run_svf, sdramAdds, hz]
    · cases hl : a.load <;> cases hf : a.flash <;> cases hs : a.sim <;>
        simp [Colorlight.BaseSoC, Colorlight._CRG, Colorlight._led,
          Colorlight.load, Colorlight.flash, Colorlight.sim,
          Colorlight.openocd_run_svf, sdramAdds, hz]
    · exact absurd ⟨he, hb⟩ hconf
  · rw [Colorlight.mainTrace a hcond]
    cases he : a.with_ethernet <;> cases hb : a.with_etherbone
    · cases hl : a.load <;> cases hf : a.flash <;> cases hs : a.sim <;>
        simp [Colorlight.BaseSoC, Colorlight._CRG, Colorlight._led,
          Colorlight.load, Colorlight.flash, Colorlight.sim,
          Colorlight.openocd_run_svf, sdramAdds, hnz]
    · cases hl : a.load <;> cases hf : a.flash <;> cases hs : a.sim <;>
        simp [Colorlight.BaseSoC, Colorlight._CRG, Colorlight._led,
          Colorlight.load, Colorlight.flash, Colorlight.sim,
          Colorlight.openocd_run_svf, sdramAdds, hnz]
    · cases hl : a.load <;> cases hf : a.flash <;> cases hs : a.sim <;>
        simp [Colorlight.BaseSoC, Colorlight._CRG, Colorlight._led,
          Colorlight.load, Colorlight.flash, Colorlight.sim,
          Colorlight.openocd_run_svf, sdramAdds, hnz]
    · exact absurd ⟨he, hb⟩ hconf
  · rw [Colorlight.mainTrace a hcond]
    cases he : a.with_ethernet <;> cases hb : a.with_etherbone
    · cases hl : a.load <;> cases hf : a.flash <;> cases hs : a.sim <;>
        simp [Colorlight.BaseSoC, Colorlight._CRG, Colorlight._led,
          Colorlight.load, Colorlight.flash, Colorlight.sim,
          Colorlight.openocd_run_svf, instantiated, hnz]
    · cases hl : a.load <;> cases hf : a.flash <;> cases hs : a.sim <;>
        simp [Colorlight.BaseSoC, Colorlight._CRG, Colorlight._led,
          Colorlight.load, Colorlight.flash, Colorlight.sim,
          Colorlight.openocd_run_svf, instantiated, hnz]
    · cases hl : a.load <;> cases hf : a.flash <;> cases hs : a.sim <;>
        simp [Colorlight.BaseSoC, Colorlight._CRG, Colorlight._led,
          Colorlight.load, Colorlight.flash, Colorlight.sim,
          Colorlight.openocd_run_svf, instantiated, hnz]
    · exact absurd ⟨he, hb⟩ hconf

/-- Witness for C9 at the concrete default invocation (no integrated RAM). -/
theorem C9_witness :
    (¬((Colorlight.Args.mk ("7.0") false false false false false 0).with_ethernet = true
        ∧ (Colorlight.Args.mk ("7.0") false false false false false 0).with_etherbone = true)
      ∧ (Colorlight.Args.mk ("7.0") false false false false false 0).integrated_main_ram_size = 0)
    ∧ (List.Sublist
        [ Event.request ("sdram") 0, Event.instantiate FeatureModule.sdrphy,
          Event.addSdram ("main_ram") FeatureModule.sdrphy ]
        (Colorlight.main (Colorlight.Args.mk ("7.0") false false false false false 0)).2
      ∧ sdramAdds (Colorlight.main (Colorlight.Args.mk ("7.0") false false false false false 0)).2 =
          [(("main_ram"), FeatureModule.sdrphy)]) :=
  ⟨⟨by simp, rfl⟩, (C9_memory_controller _ (by simp)).1 rfl⟩

/-- C10: under the validated-configuration precondition (at most one of
`with_ethernet`/`with_etherbone`), each exclusive PHY pad bundle
`("eth_clocks", i)` and `("eth", i)` is requested from the platform at most
once per composition — exactly once in the no-soc target's `EtherboneSoC` —
so the platform's double-allocation error branch is unreachable. -/
theorem C10_eth_pads_at_most_once (a : Colorlight.Args)
    (hconf : ¬(a.with_ethernet = true ∧ a.with_etherbone = true)) :
    (requests (Colorlight.main a).2).count ((("eth_clocks") : String), 0) ≤ 1
    ∧ (requests (Colorlight.main a).2).count ((("eth") : String), 0) ≤ 1
    ∧ ∀ (revision : String) (eth_phy : Nat),
        (requests (NoSoc.EtherboneSoC revision eth_phy)).count
          ((("eth_clocks") : String), eth_phy) = 1
        ∧ (requests (NoSoc.EtherboneSoC revision eth_phy)).count
          ((("eth") : String), eth_phy) = 1 := by
  have hcond := Colorlight.netConflictFalse a hconf
  refine ⟨?_, ?_, fun revision eth_phy => ⟨?_, ?_⟩⟩
  · rw [Colorlight.mainTrace a hcond]
    cases he : a.with_ethernet <;> cases hb : a.with_etherbone
    · cases hl : a.load <;> cases hf : a.flash <;> cases hs : a.sim <;>
        by_cases hz : a.integrated_main_ram_size = 0 <;>
        simp [Colorlight.BaseSoC, Colorlight._CRG, Colorlight._led,
          Colorlight.load, Colorlight.flash, Colorlight.sim,
          Colorlight.openocd_run_svf, requests, List.count_cons, hz]
    · cases hl : a.load <;> cases hf : a.flash <;> cases hs : a.sim <;>
        by_cases hz : a.integrated_main_ram_size = 0 <;>
        simp [Colorlight.BaseSoC, Colorlight._CRG, Colorlight._led,
          Colorlight.load, Colorlight.flash, Colorlight.sim,
          Colorlight.openocd_run_svf, requests, List.count_cons, hz]
    · cases hl : a.load <;> cases hf : a.flash <;> cases hs : a.sim <;>
        by_cases hz : a.integrated_main_ram_size = 0 <;>
        simp [Colorlight.BaseSoC, Colorlight._CRG, Colorlight._led,
          Colorlight.load, Colorlight.flash, Colorlight.sim,
          Colorlight.openocd_run_svf, requests, List.count_cons, hz]
    · exact absurd ⟨he, hb⟩ hconf
  · rw [Colorlight.mainTrace a hcond]
    cases he : a.with_ethernet <;> cases hb : a.with_etherbone
    · cases hl : a.load <;> cases hf : a.flash <;> cases hs : a.sim <;>
        by_cases hz : a.integrated_main_ram_size = 0 <;>
        simp [Colorlight.BaseSoC, Colorlight._CRG, Colorlight._led,
          Colorlight.load, Colorlight.flash, Colorlight.sim,
          Colorlight.openocd_run_svf, requests, List.count_cons, hz]
    · cases hl : a.load <;> cases hf : a.flash <;> cases hs : a.sim <;>
        by_cases hz : a.integrated_main_ram_size = 0 <;>
        simp [Colorlight.BaseSoC, Colorlight._CRG, Colorlight._led,
          Colorlight.load, Colorlight.flash, Colorlight.sim,
          Colorlight.openocd_run_svf, requests, List.count_cons, hz]
    · cases hl : a.load <;> cases hf : a.flash <;> cases hs : a.sim <;>
        by_cases hz : a.integrated_main_ram_size = 0 <;>
        simp [Colorlight.BaseSoC, Colorlight._CRG, Colorlight._led,
          Colorlight.load, Colorlight.flash, Colorlight.sim,
          Colorlight.openocd_run_svf, requests, List.count_cons, hz]
    · exact absurd ⟨he, hb⟩ hconf
  · simp [NoSoc.EtherboneSoC, NoSoc.BaseSoC, NoSoc._CRG, NoSoc._LED,
      requests, List.count_cons]
  · simp [NoSoc.EtherboneSoC, NoSoc.BaseSoC, NoSoc._CRG, NoSoc._LED,
      requests, List.count_cons]

/-- Witness for C10 at the concrete Ethernet-enabled invocation and the
CLI-default PHY index. -/
theorem C10_witness :
    (¬((Colorlight.Args.mk ("7.0") true false false false false 0).with_ethernet = true
        ∧ (Colorlight.Args.mk ("7.0") true false false false false 0).with_etherbone = true))
    ∧ (requests (Colorlight.main (Colorlight.Args.mk ("7.0") true false false false false 0)).2).count
        ((("eth_clocks") : String), 0) ≤ 1
    ∧ (requests (Colorlight.main (Colorlight.Args.mk ("7.0") true false false false false 0)).2).count
        ((("eth") : String), 0) ≤ 1
    ∧ (requests (NoSoc.EtherboneSoC ("7.0") 0)).count ((("eth_clocks") : String), 0) = 1
    ∧ (requests (NoSoc.EtherboneSoC ("7.0") 0)).count ((("eth") : String), 0) = 1 :=
  ⟨by simp,
   (C10_eth_pads_at_most_once _ (by simp)).1,
   (C10_eth_pads_at_most_once _ (by simp)).2.1,
   ((C10_eth_pads_at_most_once (Colorlight.Args.mk ("7.0") true false false false false 0)
      (by simp)).2.2 ("7.0") 0).1,
   ((C10_eth_pads_at_most_once (Colorlight.Args.mk ("7.0") true false false false false 0)
      (by simp)).2.2 ("7.0") 0).2⟩

/-- C2 counterexample: in `colorlight_5a_75b.py`, a load-only invocation also
deletes the toolchain configuration file (`openocd_run_svf` runs
`rm openocd.cfg` unconditionally), so after a load-only invocation the file
does not remain on disk, contrary to the claim. -/
theorem C2_cex_load_only_deletes_cfg :
    cfgOnDisk (Colorlight.main
      (Colorlight.Args.mk ("7.0") false false true false false 0)).2 = false
    ∧ Event.deleteFile ("openocd.cfg") ∈
        (Colorlight.main (Colorlight.Args.mk ("7.0") false false true false false 0)).2 := by
  refine ⟨by decide, by decide⟩

/-- C2 amended: the configuration file is written before every programmer
invocation in both targets; in `colorlight_5a_75b.py` it is deleted after
use in both the load and the flash path (so it never remains on disk there),
while in `colorlight_5a_75b_no_soc.py`'s load path it is not deleted and
remains on disk after the invocation. -/
theorem C2_amended_cfg_lifecycle (a1 : Colorlight.Args) (a2 : NoSoc.Args)
    (h1 : a1.load = true ∨ a1.flash = true) (h2 : a2.load = true) :
    invokesHaveCfg (Colorlight.main a1).2 = true
    ∧ cfgOnDisk (Colorlight.main a1).2 = false
    ∧ invokesHaveCfg (NoSoc.main a2) = true
    ∧ cfgOnDisk (NoSoc.main a2) = true := by
  refine ⟨?_, ?_, ?_, ?_⟩
  · cases he : a1.with_ethernet <;> cases hb : a1.with_etherbone <;>
      cases hl : a1.load <;> cases hf : a1.flash <;> cases hs : a1.sim <;>
      by_cases hz : a1.integrated_main_ram_size = 0 <;>
      simp [Colorlight.main, Colorlight.BaseSoC, Colorlight._CRG, Colorlight._led,
        Colorlight.load, Colorlight.flash, Colorlight.sim,
        Colorlight.openocd_run_svf, invokesHaveCfg, he, hb, hl, hf, hs, hz]
  · cases he : a1.with_ethernet <;> cases hb : a1.with_etherbone <;>
      cases hl : a1.load <;> cases hf : a1.flash <;> cases hs : a1.sim <;>
      by_cases hz : a1.integrated_main_ram_size = 0 <;>
      simp [Colorlight.main, Colorlight.BaseSoC, Colorlight._CRG, Colorlight._led,
        Colorlight.load, Colorlight.flash, Colorlight.sim,
        Colorlight.openocd_run_svf, cfgOnDisk, he, hb, hl, hf, hs, hz]
  · simp [NoSoc.main, h2, NoSoc.load, invokesHaveCfg]
  · simp [NoSoc.main, h2, NoSoc.load, cfgOnDisk]

/-- Witness for C2's amended statement at the two concrete load invocations. -/
theorem C2_witness :
    (((Colorlight.Args.mk ("7.0") false false true false false 0).load = true
        ∨ (Colorlight.Args.mk ("7.0") false false true false false 0).flash = true)
      ∧ (NoSoc.Args.mk ("7.0") false 0 true false false).load = true)
    ∧ (invokesHaveCfg (Colorlight.main
          (Colorlight.Args.mk ("7.0") false false true false false 0)).2 = true
      ∧ cfgOnDisk (Colorlight.main
          (Colorlight.Args.mk ("7.0") false false true false false 0)).2 = false
      ∧ invokesHaveCfg (NoSoc.main (NoSoc.Args.mk ("7.0") false 0 true false false)) = true
      ∧ cfgOnDisk (NoSoc.main (NoSoc.Args.mk ("7.0") false 0 true false false)) = true) :=
  ⟨⟨Or.inl rfl, rfl⟩, C2_amended_cfg_lifecycle _ _ (Or.inl rfl) rfl⟩

/-- C3 counterexample: in `colorlight_5a_75b.py`, an invocation with the load
flag set does not terminate after the programmer invocation and does not skip
composition: with load and flash both set, the CRG is instantiated (the
composition ran) and the programmer is invoked twice — once by load and then
again by flash — contradicting "invokes the external programmer ... and then
terminates the process". -/
theorem C3_cex_load_does_not_terminate :
    FeatureModule.crg ∈ instantiated (Colorlight.main
      (Colorlight.Args.mk ("7.0") false false true true false 0)).2
    ∧ programmerImages (Colorlight.main
        (Colorlight.Args.mk ("7.0") false false true true false 0)).2 =
      [("soc_basesoc_colorlight_5a_75b/gateware/top.svf"),
       ("soc_basesoc_colorlight_5a_75b/gateware/top.svf.flash")] := by
  refine ⟨by decide, by decide⟩

/-- C3 amended: only in `colorlight_5a_75b_no_soc.py` does a load invocation
behave as claimed — it writes the configuration file, invokes the external
programmer on the previously-built image and terminates, reaching no other
action and no build step; its dispatch order is load, then sim, then no-soc,
then build-as-default.  In `colorlight_5a_75b.py` the composition runs
unconditionally before the action dispatch, load falls through to the flash
(and sim) actions, and no build-backend hand-off exists at all (it is
commented out). -/
theorem C3_amended_dispatch_order (a1 : Colorlight.Args) (a2 : NoSoc.Args)
    (h2 : a2.load = true)
    (hconf : ¬(a1.with_ethernet = true ∧ a1.with_etherbone = true)) :
    NoSoc.main a2 =
      [ Event.writeFile ("openocd.cfg") openocdCfg,
        Event.invokeProgrammer ("soc_etherbonesoc_colorlight_5a_75b/gateware/top.svf"),
        Event.exitProcess ]
    ∧ Event.buildBackend ∉ NoSoc.main a2
    ∧ (a1.load = true → FeatureModule.crg ∈ instantiated (Colorlight.main a1).2)
    ∧ (a1.load = true → a1.flash = true →
        programmerImages (Colorlight.main a1).2 =
          [("soc_basesoc_colorlight_5a_75b/gateware/top.svf"),
           ("soc_basesoc_colorlight_5a_75b/gateware/top.svf.flash")])
    ∧ Event.buildBackend ∉ (Colorlight.main a1).2 := by
  refine ⟨by simp [NoSoc.main, h2, NoSoc.load],
    by simp [NoSoc.main, h2, NoSoc.load], fun hl => ?_, fun hl hf => ?_, ?_⟩
  · rw [Colorlight.mainTrace a1 (Colorlight.netConflictFalse a1 hconf)]
    cases he : a1.with_ethernet <;> cases hb : a1.with_etherbone
    · cases hf : a1.flash <;> cases hs : a1.sim <;>
        by_cases hz : a1.integrated_main_ram_size = 0 <;>
        simp [Colorlight.BaseSoC, Colorlight._CRG, Colorlight._led,
          Colorlight.load, Colorlight.flash, Colorlight.sim,
          Colorlight.openocd_run_svf, instantiated, hz]
    · cases hf : a1.flash <;> cases hs : a1.sim <;>
        by_cases hz : a1.integrated_main_ram_size = 0 <;>
        simp [Colorlight.BaseSoC, Colorlight._CRG, Colorlight._led,
          Colorlight.load, Colorlight.flash, Colorlight.sim,
          Colorlight.openocd_run_svf, instantiated, hz]
    · cases hf : a1.flash <;> cases hs : a1.sim <;>
        by_cases hz : a1.integrated_main_ram_size = 0 <;>
        simp [Colorlight.BaseSoC, Colorlight._CRG, Colorlight._led,
          Colorlight.load, Colorlight.flash, Colorlight.sim,
          Colorlight.openocd_run_svf, instantiated, hz]
    · exact absurd ⟨he, hb⟩ hconf
  · rw [Colorlight.mainTrace a1 (Colorlight.netConflictFalse a1 hconf), hl, hf]
    cases he : a1.with_ethernet <;> cases hb : a1.with_etherbone
    · cases hs : a1.sim <;>
        by_cases hz : a1.integrated_main_ram_size = 0 <;>
        simp [Colorlight.BaseSoC, Colorlight._CRG, Colorlight._led,
          Colorlight.load, Colorlight.flash, Colorlight.sim,
          Colorlight.openocd_run_svf, programmerImages, hz]
    · cases hs : a1.sim <;>
        by_cases hz : a1.integrated_main_ram_size = 0 <;>
        simp [Colorlight.BaseSoC, Colorlight._CRG, Colorlight._led,
          Colorlight.load, Colorlight.flash, Colorlight.sim,
          Colorlight.openocd_run_svf, programmerImages, hz]
    · cases hs : a1.sim <;>
        by_cases hz : a1.integrated_main_ram_size = 0 <;>
        simp [Colorlight.BaseSoC, Colorlight._CRG, Colorlight._led,
          Colorlight.load, Colorlight.flash, Colorlight.sim,
          Colorlight.openocd_run_svf, programmerImages, hz]
    · exact absurd ⟨he, hb⟩ hconf
  · cases he : a1.with_ethernet <;> cases hb : a1.with_etherbone <;>
      cases hl : a1.load <;> cases hf : a1.flash <;> cases hs : a1.sim <;>
      by_cases hz : a1.integrated_main_ram_size = 0 <;>
      simp [Colorlight.main, Colorlight.BaseSoC, Colorlight._CRG, Colorlight._led,
        Colorlight.load, Colorlight.flash, Colorlight.sim,
        Colorlight.openocd_run_svf, he, hb, hl, hf, hs, hz]

/-- Witness for C3's amended statement at the concrete load invocations. -/
theorem C3_witness :
    ((NoSoc.Args.mk ("7.0") false 0 true false false).load = true
      ∧ ¬((Colorlight.Args.mk ("7.0") false false true true false 0).with_ethernet = true
          ∧ (Colorlight.Args.mk ("7.0") false false true true false 0).with_etherbone = true))
    ∧ (NoSoc.main (NoSoc.Args.mk ("7.0") false 0 true false false) =
        [ Event.writeFile ("openocd.cfg") openocdCfg,
          Event.invokeProgrammer ("soc_etherbonesoc_colorlight_5a_75b/gateware/top.svf"),
          Event.exitProcess ]
      ∧ Event.buildBackend ∉ NoSoc.main (NoSoc.Args.mk ("7.0") false 0 true false false)
      ∧ FeatureModule.crg ∈ instantiated (Colorlight.main
          (Colorlight.Args.mk ("7.0") false false true true false 0)).2
      ∧ programmerImages (Colorlight.main
          (Colorlight.Args.mk ("7.0") false false true true false 0)).2 =
          [("soc_basesoc_colorlight_5a_75b/gateware/top.svf"),
           ("soc_basesoc_colorlight_5a_75b/gateware/top.svf.flash")]
      ∧ Event.buildBackend ∉ (Colorlight.main
          (Colorlight.Args.mk ("7.0") false false true true false 0)).2) :=
  ⟨⟨rfl, by simp⟩,
    (C3_amended_dispatch_order
      (Colorlight.Args.mk ("7.0") false false true true false 0)
      (NoSoc.Args.mk ("7.0") false 0 true false false) rfl (by simp)).1,
    (C3_amended_dispatch_order
      (Colorlight.Args.mk ("7.0") false false true true false 0)
      (NoSoc.Args.mk ("7.0") false 0 true false false) rfl (by simp)).2.1,
    (C3_amended_dispatch_order
      (Colorlight.Args.mk ("7.0") false false true true false 0)
      (NoSoc.Args.mk ("7.0") false 0 true false false) rfl (by simp)).2.2.1 rfl,
    (C3_amended_dispatch_order
      (Colorlight.Args.mk ("7.0") false false true true false 0)
      (NoSoc.Args.mk ("7.0") false 0 true false false) rfl (by simp)).2.2.2.1 rfl rfl,
    (C3_amended_dispatch_order
      (Colorlight.Args.mk ("7.0") false false true true false 0)
      (NoSoc.Args.mk ("7.0") false 0 true false false) rfl (by simp)).2.2.2.2⟩

/-- C6 counterexample: in `colorlight_5a_75b.py`, the default invocation (no
load/flash/sim flag) completes composition successfully but never invokes
the external build backend — the `Builder`/`builder.build` hand-off is
commented out in the source — so the default Build action does not hand its
result to the build backend and cannot produce an image artifact. -/
theorem C6_cex_no_backend_in_default_build :
    (Colorlight.main (Colorlight.Args.mk ("7.0") false false false false false 0)).1 =
      Except.ok ()
    ∧ backendInvocations (Colorlight.main
        (Colorlight.Args.mk ("7.0") false false false false false 0)).2 = 0 := by
  refine ⟨rfl, by decide⟩

/-- C6 amended: in `colorlight_5a_75b_no_soc.py`, the external build backend
is invoked exactly when neither the load nor the sim action preempts the
invocation: the default Build path composes the SoC and hands it to the
Builder as its final step, and the no-soc path hands the raw-platform design
to `platform.build` — these are the only artifact-producing paths, and load
and sim can produce none.  In `colorlight_5a_75b.py` the build-backend
hand-off is commented out, so no invocation of that target hands anything to
the build backend. -/
theorem C6_amended_backend_paths (a1 : Colorlight.Args) (a2 : NoSoc.Args) :
    (Event.buildBackend ∈ NoSoc.main a2 ↔ (a2.load = false ∧ a2.sim = false))
    ∧ (a2.load = false → a2.sim = false → a2.no_soc = false →
        (NoSoc.main a2).getLast? = some Event.buildBackend
        ∧ FeatureModule.crg ∈ instantiated (NoSoc.main a2))
    ∧ backendInvocations (Colorlight.main a1).2 = 0 := by
  refine ⟨?_, fun hl hs hn => ⟨?_, ?_⟩, ?_⟩
  · cases hl : a2.load <;> cases hs : a2.sim <;> cases hn : a2.no_soc <;>
      cases he : a2.with_etherbone <;>
      simp [NoSoc.main, NoSoc.load, NoSoc.sim, NoSoc.EtherboneSoC, NoSoc.BaseSoC,
        NoSoc._CRG, NoSoc._LED, hl, hs, hn, he]
  · cases he : a2.with_etherbone <;>
      simp [NoSoc.main, hl, hs, hn, he, List.getLast?_append_cons]
  · cases he : a2.with_etherbone <;>
      simp [NoSoc.main, hl, hs, hn, he, NoSoc.EtherboneSoC, NoSoc.BaseSoC,
        NoSoc._CRG, NoSoc._LED, instantiated]
  · cases he : a1.with_ethernet <;> cases hb : a1.with_etherbone <;>
      cases hl : a1.load <;> cases hf : a1.flash <;> cases hs : a1.sim <;>
      by_cases hz : a1.integrated_main_ram_size = 0 <;>
      simp [Colorlight.main, Colorlight.BaseSoC, Colorlight._CRG, Colorlight._led,
        Colorlight.load, Colorlight.flash, Colorlight.sim,
        Colorlight.openocd_run_svf, backendInvocations, he, hb, hl, hf, hs, hz]

/-- Witness for C6's amended statement at the concrete default-build
invocations of both targets. -/
theorem C6_witness :
    (Event.buildBackend ∈ NoSoc.main (NoSoc.Args.mk ("7.0") true 0 false false false) ↔
      ((NoSoc.Args.mk ("7.0") true 0 false false false).load = false
        ∧ (NoSoc.Args.mk ("7.0") true 0 false false false).sim = false))
    ∧ ((NoSoc.main (NoSoc.Args.mk ("7.0") true 0 false false false)).getLast? =
        some Event.buildBackend
      ∧ FeatureModule.crg ∈ instantiated (NoSoc.main
          (NoSoc.Args.mk ("7.0") true 0 false false false)))
    ∧ backendInvocations (Colorlight.main
        (Colorlight.Args.mk ("7.0") false false false false false 0)).2 = 0 :=
  ⟨(C6_amended_backend_paths
      (Colorlight.Args.mk ("7.0") false false false false false 0)
      (NoSoc.Args.mk ("7.0") true 0 false false false)).1,
   (C6_amended_backend_paths
      (Colorlight.Args.mk ("7.0") false false false false false 0)
      (NoSoc.Args.mk ("7.0") true 0 false false false)).2.1 rfl rfl rfl,
   (C6_amended_backend_paths
      (Colorlight.Args.mk ("7.0") false false false false false 0)
      (NoSoc.Args.mk ("7.0") true 0 false false false)).2.2⟩

/-- Witness for C5 at a concrete PLL/button state. -/
theorem C5_witness :
    NoSoc._CRG_sys_rst false true = (!false || !true)
    ∧ Event.asyncResetSync ("sys") ∈ NoSoc._CRG
    ∧ Colorlight._CRG_sys_rst false = (!false || false)
    ∧ Event.asyncResetSync ("sys") ∈ Colorlight._CRG
    ∧ Event.request ("user_btn_n") 0 ∉ Colorlight._CRG
    ∧ (Colorlight.main (Colorlight.Args.mk ("7.0") false false false false false 0)).1 =
        Except.ok () :=
  C5_reset_synchronization false true
